import Mathlib

/-!
Verification of the FTP client in `project2ftpclient/ftp_client.py`.

The Python source is shallowly embedded as pure Lean functions.  Strings are
modelled as `List Char` (`Str`).  The network is modelled by an environment
`Env` giving the server greeting, the response the server sends back for each
control command, and the bytes served on a data connection; the local
filesystem is a predicate `FS` saying which paths exist.  Each method of the
`FTPClient` class becomes a function returning the trace of externally visible
events (control commands sent, lines printed, data connections opened and
closed, local file accesses) together with the updated filesystem and an
`Outcome` (normal return, `exit(code)`, or an uncaught Python exception).
-/

abbrev Str := List Char

/-- Python exceptions that the embedded code can raise. -/
inductive PyErr
  | indexError
  | typeError
  | fileNotFoundError
  deriving DecidableEq, Repr

/-- Externally visible events of a run of the client. -/
inductive Event
  | cmd (c : Str)
  | printed (s : Str)
  | openData (ip : Str) (port : Nat)
  | closeData
  | fileRead (p : Str)
  | fileWrite (p : Str)
  | fileDelete (p : Str)
  deriving DecidableEq, Repr

/-- How a run of a method (or of the whole client) terminates. -/
inductive Outcome
  | ok
  | exited (code : Nat)
  | crashed (e : PyErr)
  deriving DecidableEq, Repr

/-- The server side of the session: the greeting sent on connect, the response
returned for each control command, and the bytes served on a data channel. -/
structure Env where
  greeting : Str
  respond : Str → Str
  listing : Str

/-- The local filesystem: which paths currently exist. -/
def FS : Type := Str → Bool

/-- Update the filesystem at one path. -/
def setFS (fs : FS) (p : Str) (v : Bool) : FS :=
  fun q => if q = p then v else fs q

/-! ### Python string and list primitives -/

/-- Python list indexing `l[n]`: raises `IndexError` when out of range. -/
def pyGet : List α → Nat → Except PyErr α
  | [], _ => .error .indexError
  | a :: _, 0 => .ok a
  | _ :: l, n + 1 => pyGet l n

/-- Python `s.split(sep)` for a one-character separator: splits at every
occurrence, keeping empty pieces; always returns at least one piece. -/
def pySplit (sep : Char) : Str → List Str
  | [] => [[]]
  | c :: r =>
    if c = sep then [] :: pySplit sep r
    else
      match pySplit sep r with
      | s :: rest => (c :: s) :: rest
      | [] => [[c]]

/-- Python `s.startswith(p)` (and, on event lists, list-prefix testing). -/
def listStartsWith [DecidableEq α] : List α → List α → Bool
  | [], _ => true
  | _ :: _, [] => false
  | a :: p, b :: s => a = b && listStartsWith p s

/-- `pyStartsWith p s` is Python `s.startswith(p)`. -/
def pyStartsWith (p s : Str) : Bool := listStartsWith p s

/-- Value of a nonempty decimal digit string, as Python `int()` computes it. -/
def digitsToNat (s : Str) : Nat :=
  s.foldl (fun a c => a * 10 + (c.toNat - 48)) 0

/-! ### `FTPClient.parse_url` (lines 324-364)

```
url = params[0] / params[1] depending on operation
url_body = url[6:]
username = url_body.split(':')[0]
password_and_path = url_body.split(':')[1]
password = password_and_path.split('@')[0]
path = password_and_path[password_and_path.index('/'):] if '/' in it else '/'
```
-/

/-- The URL actually parsed, chosen from `params` by the operation. -/
def urlOf (operation : Str) (params : List Str) : Except PyErr Str :=
  if operation = "cp".data ∨ operation = "mv".data then
    match pyGet params 0 with
    | .error e => .error e
    | .ok p0 => if pyStartsWith "ftp://".data p0 then .ok p0 else pyGet params 1
  else
    pyGet params 0

/-- The body of `parse_url` applied to the selected URL string (the source
calls `url_body.split(':')` once for the username and once for the
password-and-path part). -/
def parse_url_body (url : Str) : Except PyErr (Str × Str × Str) :=
  match pyGet (pySplit ':' (url.drop 6)) 0 with
  | .error e => .error e
  | .ok username =>
    match pyGet (pySplit ':' (url.drop 6)) 1 with
    | .error e => .error e
    | .ok password_and_path =>
      match pyGet (pySplit '@' password_and_path) 0 with
      | .error e => .error e
      | .ok password =>
        .ok (username, password,
          if '/' ∈ password_and_path then
            password_and_path.drop (password_and_path.findIdx (· == '/'))
          else
            "/".data)

def parse_url (operation : Str) (params : List Str) : Except PyErr (Str × Str × Str) :=
  match urlOf operation params with
  | .error e => .error e
  | .ok url => parse_url_body url

/-! ### PASV response parsing (lines 199-208)

The regex `(\d+),(\d+),(\d+),(\d+),(\d+),(\d+)` searched with `re.search`:
at each position, greedily read a maximal digit run, then require a comma,
six times (no comma after the sixth group).  Since a comma is never a digit,
greedy matching with backtracking is equivalent to maximal-run parsing, and
`re.search` returns the leftmost position at which this succeeds. -/

/-- Match one `\d+` group at the current position: the maximal digit run,
failing when it is empty. -/
def matchGroup (s : Str) : Option (Str × Str) :=
  if s.takeWhile Char.isDigit = [] then none
  else some (s.takeWhile Char.isDigit, s.dropWhile Char.isDigit)

/-- Require a literal comma at the current position. -/
def expectComma : Str → Option Str
  | [] => none
  | c :: r => if c = ',' then some r else none

/-- One `\d+,` step: a group followed by a comma. -/
def matchGroupComma (s : Str) : Option (Str × Str) :=
  match matchGroup s with
  | none => none
  | some (g, r) =>
    match expectComma r with
    | none => none
    | some r2 => some (g, r2)

/-- Attempt the whole six-group pattern at the current position. -/
def matchSix (s : Str) : Option (Str × Str × Str × Str × Str × Str) :=
  match matchGroupComma s with
  | none => none
  | some (g1, r1) =>
    match matchGroupComma r1 with
    | none => none
    | some (g2, r2) =>
      match matchGroupComma r2 with
      | none => none
      | some (g3, r3) =>
        match matchGroupComma r3 with
        | none => none
        | some (g4, r4) =>
          match matchGroupComma r4 with
          | none => none
          | some (g5, r5) =>
            match matchGroup r5 with
            | none => none
            | some (g6, _) => some (g1, g2, g3, g4, g5, g6)

/-- `re.search` for the six-group pattern: leftmost matching position. -/
def reSearchSix : Str → Option (Str × Str × Str × Str × Str × Str)
  | [] => none
  | c :: rest =>
    match matchSix (c :: rest) with
    | some g => some g
    | none => reSearchSix rest

/-- The pure extraction step of `enter_passive_mode`: first four groups joined
with dots form the IP, the last two form the port `p1 * 256 + p2`. -/
def parsePassive (resp : Str) : Option (Str × Nat) :=
  match reSearchSix resp with
  | some (a, b, c, d, p1, p2) =>
    some (a ++ '.' :: b ++ '.' :: c ++ '.' :: d,
          digitsToNat p1 * 256 + digitsToNat p2)
  | none => none

/-! ### Printed message texts (apostrophes written as the escape \x27) -/

def pasvInfoMsg (ip : Str) (port : Nat) : Str :=
  "Data connection info - IPL ".data ++ ip ++ ", Port: ".data ++ (Nat.repr port).data

def pasvFailMsg : Str := "Could not parse PASV response.".data

def cpMvArgErrMsg : Str :=
  "Error: \x27cp\x27 and \x27mv\x27 operations require two arguments.".data

def rmArgErrMsg : Str := "Error: \x27rm\x27 operation requires a file path.".data

def mkdirOkMsg (d : Str) : Str :=
  "Directory \x27".data ++ d ++ "\x27 created successfully.".data

def mkdirFailMsg (d resp : Str) : Str :=
  "Failed to create directory \x27".data ++ d ++ "\x27. Server response: ".data ++ resp

def rmdirOkMsg (d : Str) : Str :=
  "Directory \x27".data ++ d ++ "\x27 removed successfully.".data

def rmdirFailMsg (d resp : Str) : Str :=
  "Failed to remove directory \x27".data ++ d ++ "\x27. Server response: ".data ++ resp

def storMissingMsg (p : Str) : Str :=
  "Error: File ".data ++ p ++ " does not exist.".data

/-! ### The session methods as trace-producing functions -/

/-- `enter_passive_mode` (lines 186-214): sends PASV, prints the response,
and either returns the parsed endpoint (printing the data-connection info)
or prints a parse-failure message and returns `(None, None)` (modelled as
`none`). -/
def enter_passive_mode (env : Env) : List Event × Option (Str × Nat) :=
  match parsePassive (env.respond "PASV".data) with
  | some (ip, pt) =>
    ([.cmd "PASV".data, .printed ("PASV Response: ".data ++ env.respond "PASV".data),
      .printed (pasvInfoMsg ip pt)], some (ip, pt))
  | none =>
    ([.cmd "PASV".data, .printed ("PASV Response: ".data ++ env.respond "PASV".data),
      .printed pasvFailMsg], none)

/-- `send_ls` (lines 90-111).  When PASV parsing failed, the code still calls
`data_socket.connect((None, None))`, which raises `TypeError` in Python: the
connect never succeeds, so no data connection is recorded. -/
def send_ls (env : Env) (fs : FS) (path : Str) : List Event × FS × Outcome :=
  match enter_passive_mode env with
  | (ptr, some (ip, pt)) =>
    (ptr ++ [.openData ip pt, .cmd ("LIST ".data ++ path),
             .printed (env.respond ("LIST ".data ++ path)),
             .printed env.listing, .closeData], fs, .ok)
  | (ptr, none) => (ptr, fs, .crashed .typeError)

/-- `send_mkdir` (lines 113-128). -/
def send_mkdir (env : Env) (fs : FS) (dir : Str) : List Event × FS × Outcome :=
  ([.cmd ("MKD ".data ++ dir),
    .printed (if pyStartsWith "257".data (env.respond ("MKD ".data ++ dir))
              then mkdirOkMsg dir
              else mkdirFailMsg dir (env.respond ("MKD ".data ++ dir)))], fs, .ok)

/-- `send_rmdir` (lines 130-145). -/
def send_rmdir (env : Env) (fs : FS) (dir : Str) : List Event × FS × Outcome :=
  ([.cmd ("RMD ".data ++ dir),
    .printed (if pyStartsWith "250".data (env.respond ("RMD ".data ++ dir))
              then rmdirOkMsg dir
              else rmdirFailMsg dir (env.respond ("RMD ".data ++ dir)))], fs, .ok)

/-- `send_dele` (lines 314-322): sends DELE, ignores the response. -/
def send_dele (_env : Env) (p : Str) : List Event :=
  [.cmd ("DELE ".data ++ p)]

/-- `send_retr` (lines 286-312): passive mode, data connect, RETR, then the
local file is created/truncated and the data-channel bytes are written to it
(the chunk loop is summarised by the single `fileWrite`, since the byte
contents are opaque here); the `with` block closes the data socket.  On a
PASV parse failure `connect((None, None))` raises `TypeError`. -/
def send_retr (env : Env) (fs : FS) (rpath lpath : Str) : List Event × FS × Outcome :=
  match enter_passive_mode env with
  | (ptr, some (ip, pt)) =>
    (ptr ++ [.openData ip pt, .cmd ("RETR ".data ++ rpath), .fileWrite lpath, .closeData],
     setFS fs lpath true, .ok)
  | (ptr, none) => (ptr, fs, .crashed .typeError)

/-- `send_stor` (lines 254-284): returns early with a printed error when the
local file does not exist; otherwise passive mode, data connect, STOR, and the
local file is read and streamed (summarised by `fileRead`). -/
def send_stor (env : Env) (fs : FS) (lpath rpath : Str) : List Event × FS × Outcome :=
  if fs lpath then
    match enter_passive_mode env with
    | (ptr, some (ip, pt)) =>
      (ptr ++ [.openData ip pt, .cmd ("STOR ".data ++ rpath), .fileRead lpath, .closeData],
       fs, .ok)
    | (ptr, none) => (ptr, fs, .crashed .typeError)
  else
    ([.printed (storMissingMsg lpath)], fs, .ok)

/-- `send_cp` (lines 147-164). -/
def send_cp (env : Env) (fs : FS) (src dst : Str) : List Event × FS × Outcome :=
  if pyStartsWith "ftp://".data src then
    match parse_url "cp".data [src, []] with
    | .ok (_, _, p) => send_retr env fs p dst
    | .error e => ([], fs, .crashed e)
  else
    match parse_url "cp".data [dst, []] with
    | .ok (_, _, p) => send_stor env fs src p
    | .error e => ([], fs, .crashed e)

/-- `send_mv` (lines 166-184): like `send_cp`, followed by `DELE` of the
remote path for a remote source, or `Path(src).unlink()` for a local source
(`unlink` raises `FileNotFoundError` when the file is gone). -/
def send_mv (env : Env) (fs : FS) (src dst : Str) : List Event × FS × Outcome :=
  if pyStartsWith "ftp://".data src then
    match parse_url "cp".data [src, []] with
    | .ok (_, _, p) =>
      match send_retr env fs p dst with
      | (tr, fs1, .ok) => (tr ++ send_dele env p, fs1, .ok)
      | r => r
    | .error e => ([], fs, .crashed e)
  else
    match parse_url "cp".data [dst, []] with
    | .ok (_, _, p) =>
      match send_stor env fs src p with
      | (tr, fs1, .ok) =>
        if fs1 src then (tr ++ [.fileDelete src], setFS fs1 src false, .ok)
        else (tr, fs1, .crashed .fileNotFoundError)
      | r => r
    | .error e => ([], fs, .crashed e)

/-! ### `FTPClient.__init__` (lines 12-66) -/

/-- The trace of the login/handshake sequence: USER, PASS, then TYPE I,
MODE S, STRU F, each response printed. -/
def loginTrace (env : Env) (u pw : Str) : List Event :=
  [.cmd ("USER ".data ++ u), .printed (env.respond ("USER ".data ++ u)),
   .cmd ("PASS ".data ++ pw), .printed (env.respond ("PASS ".data ++ pw)),
   .cmd "TYPE I".data, .printed (env.respond "TYPE I".data),
   .cmd "MODE S".data, .printed (env.respond "MODE S".data),
   .cmd "STRU F".data, .printed (env.respond "STRU F".data)]

/-- `send_quit` (lines 246-252). -/
def quitTrace (env : Env) : List Event :=
  [.cmd "QUIT".data, .printed (env.respond "QUIT".data)]

/-- QUIT is reached only when the dispatched operation returned normally;
`exit(1)` and uncaught exceptions skip it. -/
def quitIf (env : Env) : Outcome → List Event
  | .ok => quitTrace env
  | _ => []

/-- The operation dispatch in `__init__` (lines 44-63), including the
argument-count checks for cp/mv/rm. -/
def dispatch (env : Env) (fs : FS) (op : Str) (params : List Str) (path : Str) :
    List Event × FS × Outcome :=
  if op = "cp".data ∨ op = "mv".data then
    if params.length < 2 then ([.printed cpMvArgErrMsg], fs, .exited 1)
    else if op = "cp".data then send_cp env fs (params.getD 0 []) (params.getD 1 [])
    else send_mv env fs (params.getD 0 []) (params.getD 1 [])
  else if op = "rm".data then
    if params.length < 1 then ([.printed rmArgErrMsg], fs, .exited 1)
    else (send_dele env path, fs, .ok)
  else if op = "ls".data then send_ls env fs path
  else if op = "mkdir".data then send_mkdir env fs path
  else if op = "rmdir".data then send_rmdir env fs path
  else ([], fs, .ok)

/-- `FTPClient.__init__`: print the greeting, parse the URL (an exception
here propagates before any command is sent), log in, set TYPE/MODE/STRU,
dispatch the operation, and send QUIT when the operation returned. -/
def clientInit (op : Str) (params : List Str) (env : Env) (fs : FS) :
    List Event × FS × Outcome :=
  match parse_url op params with
  | .error e => ([.printed env.greeting], fs, .crashed e)
  | .ok (u, pw, path) =>
    let r := dispatch env fs op params path
    (.printed env.greeting :: (loginTrace env u pw ++ (r.1 ++ quitIf env r.2.2)),
     r.2.1, r.2.2)

/-! ### Trace predicates -/

/-- No successfully opened data connection appears in the trace. -/
def noOpenData (t : List Event) : Bool :=
  t.all fun e => match e with
    | .openData _ _ => false
    | _ => true

/-- Whether an outcome is a process exit via `exit(code)`. -/
def isExited : Outcome → Bool
  | .exited _ => true
  | _ => false

/-- No control command and no data connection appears in the trace. -/
def noCmdNoData (t : List Event) : Bool :=
  t.all fun e => match e with
    | .cmd _ => false
    | .openData _ _ => false
    | _ => true

/-- Data-channel discipline automaton.  First argument: the currently open
data connection, if any.  Second argument: the text of the immediately
preceding `printed` event, used to check that every successful connect is
immediately preceded by the passive-mode success report with the same
endpoint.  Accepts iff: at most one data connection is open at a time, every
open is justified by a successful PASV negotiation, no QUIT command is sent
while a data connection is open, and the trace ends with the connection
closed. -/
def ddAux : Option (Str × Nat) → Option Str → List Event → Bool
  | oc, _, [] => oc.isNone
  | none, lp, .openData ip pt :: r =>
    (lp == some (pasvInfoMsg ip pt)) && ddAux (some (ip, pt)) none r
  | none, _, .closeData :: _ => false
  | none, _, .printed m :: r => ddAux none (some m) r
  | none, _, .cmd _ :: r => ddAux none none r
  | none, _, .fileRead _ :: r => ddAux none none r
  | none, _, .fileWrite _ :: r => ddAux none none r
  | none, _, .fileDelete _ :: r => ddAux none none r
  | some _, _, .openData _ _ :: _ => false
  | some _, _, .closeData :: r => ddAux none none r
  | some s, _, .cmd c :: r => !(c == "QUIT".data) && ddAux (some s) none r
  | some s, _, .printed _ :: r => ddAux (some s) none r
  | some s, _, .fileRead _ :: r => ddAux (some s) none r
  | some s, _, .fileWrite _ :: r => ddAux (some s) none r
  | some s, _, .fileDelete _ :: r => ddAux (some s) none r

/-- Data-channel discipline of a whole trace. -/
def dataDiscipline (t : List Event) : Bool := ddAux none none t

/-- Events that involve only the control channel or the console. -/
def ctrlOnly (t : List Event) : Bool :=
  t.all fun e => match e with
    | .printed _ => true
    | .cmd _ => true
    | _ => false

/-! ### Sample environments used by the concrete witnesses -/

/-- A server that answers every command with a plain 200 line. -/
def env0 : Env := ⟨"220 welcome".data, fun _ => "200 ok".data, "total 0".data⟩

/-- A server whose responses contain a parseable six-number PASV pattern. -/
def envPasv : Env := ⟨"220 welcome".data, fun _ => "227 =10,0,0,1,4,1".data, "total 0".data⟩

/-- A server that refuses authentication with a 530 response. -/
def envRefuse : Env :=
  ⟨"220 welcome".data, fun _ => "530 Login incorrect.".data, "total 0".data⟩

/-- A server whose responses never contain the six-number PASV pattern. -/
def envNoPasv : Env :=
  ⟨"220 welcome".data, fun _ => "500 Syntax error.".data, "total 0".data⟩

/-- An empty local filesystem. -/
def fs0 : FS := fun _ => false

/-- A local filesystem on which every path exists. -/
def fs1 : FS := fun _ => true

/-! ### Helper lemmas -/

theorem pySplit_single {sep : Char} {s : Str} (h : sep ∉ s) : pySplit sep s = [s] := by
  induction s with
  | nil => rfl
  | cons c r ih =>
    have hc : ¬ c = sep := fun hh => h (hh ▸ List.mem_cons_self c r)
    have hr : sep ∉ r := fun hh => h (List.mem_cons_of_mem c hh)
    simp [pySplit, hc, ih hr]

theorem pySplit_sep_append {sep : Char} {a : Str} (b : Str) (h : sep ∉ a) :
    pySplit sep (a ++ sep :: b) = a :: pySplit sep b := by
  induction a with
  | nil => simp [pySplit]
  | cons c a' ih =>
    have hc : ¬ c = sep := fun hh => h (hh ▸ List.mem_cons_self c a')
    have ha : sep ∉ a' := fun hh => h (List.mem_cons_of_mem c hh)
    simp [pySplit, hc, ih ha]

theorem pySplit_ne_nil (sep : Char) (s : Str) : pySplit sep s ≠ [] := by
  induction s with
  | nil => simp [pySplit]
  | cons c r ih =>
    by_cases hc : c = sep
    · simp [pySplit, hc]
    · cases hr : pySplit sep r with
      | nil => exact absurd hr ih
      | cons a l => simp [pySplit, hc, hr]

theorem pyGet_pySplit_zero (sep : Char) (s : Str) :
    pyGet (pySplit sep s) 0 = .ok (s.takeWhile (· != sep)) := by
  induction s with
  | nil => rfl
  | cons c r ih =>
    by_cases hc : c = sep
    · subst hc
      simp [pySplit, pyGet, List.takeWhile_cons]
    · have hbne : (c != sep) = true := bne_iff_ne.mpr hc
      cases hr : pySplit sep r with
      | nil => exact absurd hr (pySplit_ne_nil sep r)
      | cons s0 rest =>
        have hs0 : s0 = r.takeWhile (· != sep) := by
          rw [hr] at ih
          simpa [pyGet] using ih
        simp [pySplit, hc, hr, pyGet, List.takeWhile_cons, hbne, hs0]

theorem drop_findIdx_eq_dropWhile (c : Char) (l : Str) :
    l.drop (l.findIdx (· == c)) = l.dropWhile (· != c) := by
  induction l with
  | nil => rfl
  | cons a l ih =>
    by_cases ha : a = c
    · subst ha
      simp [List.findIdx_cons, List.dropWhile_cons]
    · have hb : (a == c) = false := beq_eq_false_iff_ne.mpr ha
      have hbne : (a != c) = true := bne_iff_ne.mpr ha
      simp [List.findIdx_cons, hb, hbne, List.dropWhile_cons, ih]

theorem listStartsWith_append [DecidableEq α] (l t : List α) :
    listStartsWith l (l ++ t) = true := by
  induction l with
  | nil => rfl
  | cons a l ih => simp [listStartsWith, ih]

theorem cons_ne_of_head {a b : Char} (h : a ≠ b) (l1 l2 : Str) : a :: l1 ≠ b :: l2 := by
  intro he
  injection he with h1 _
  exact h h1

theorem list_cmd_not_quit (p : Str) :
    (('L' :: 'I' :: 'S' :: 'T' :: ' ' :: p) == ('Q' :: 'U' :: 'I' :: 'T' :: [])) = false :=
  beq_eq_false_iff_ne.mpr (cons_ne_of_head (by decide) _ _)

theorem retr_cmd_not_quit (p : Str) :
    (('R' :: 'E' :: 'T' :: 'R' :: ' ' :: p) == ('Q' :: 'U' :: 'I' :: 'T' :: [])) = false :=
  beq_eq_false_iff_ne.mpr (cons_ne_of_head (by decide) _ _)

theorem stor_cmd_not_quit (p : Str) :
    (('S' :: 'T' :: 'O' :: 'R' :: ' ' :: p) == ('Q' :: 'U' :: 'I' :: 'T' :: [])) = false :=
  beq_eq_false_iff_ne.mpr (cons_ne_of_head (by decide) _ _)

/-! ### C5 - upload with a missing local source file -/

/-- C5: when the local source file does not exist, `send_stor` prints an
error and returns; its trace contains no control command (in particular no
PASV and no STOR) and no data connection. -/
theorem send_stor_missing_local_file (env : Env) (fs : FS) (lpath rpath : Str)
    (h : fs lpath = false) :
    send_stor env fs lpath rpath = ([.printed (storMissingMsg lpath)], fs, .ok) ∧
    noCmdNoData (send_stor env fs lpath rpath).1 = true := by
  constructor
  · simp [send_stor, h]
  · simp [send_stor, h, noCmdNoData]

/-- Witness for C5 at a concrete missing file. -/
theorem send_stor_missing_local_file_witness :
    fs0 "draft.txt".data = false ∧
    send_stor env0 fs0 "draft.txt".data "/up.txt".data =
      ([.printed (storMissingMsg "draft.txt".data)], fs0, .ok) :=
  ⟨rfl, (send_stor_missing_local_file env0 fs0 "draft.txt".data "/up.txt".data rfl).1⟩

/-! ### C10 - URLs without a colon after the scheme -/

/-- C10: when the URL body after the 6-character scheme prefix contains no
colon, `parse_url` raises `IndexError` at the `split(':')[1]` subscript, and
the whole client run crashes with that exception. -/
theorem parse_url_requires_colon (url : Str) (env : Env) (fs : FS)
    (_hs : pyStartsWith "ftp://".data url = true)
    (hc : ':' ∉ url.drop 6) :
    parse_url "ls".data [url] = .error .indexError ∧
    (clientInit "ls".data [url] env fs).2.2 = .crashed .indexError := by
  have hparse : parse_url "ls".data [url] = .error .indexError := by
    have hurl : urlOf "ls".data [url] = .ok url := by
      unfold urlOf
      rw [if_neg (by decide)]
      rfl
    unfold parse_url
    rw [hurl]
    show parse_url_body url = .error .indexError
    unfold parse_url_body
    simp only [pySplit_single hc, pyGet]
  exact ⟨hparse, by simp [clientInit, hparse]⟩

/-- Witness for C10 at a concrete credential-free URL. -/
theorem parse_url_requires_colon_witness :
    pyStartsWith "ftp://".data "ftp://hostonly/path".data = true ∧
    (':' ∉ ("ftp://hostonly/path".data.drop 6)) ∧
    parse_url "ls".data ["ftp://hostonly/path".data] = .error .indexError ∧
    (clientInit "ls".data ["ftp://hostonly/path".data] env0 fs0).2.2 = .crashed .indexError :=
  ⟨by decide, by decide,
   parse_url_requires_colon "ftp://hostonly/path".data env0 fs0 (by decide) (by decide)⟩

/-! ### More helper lemmas about `parse_url` routing -/

theorem parse_url_mv_eq_cp (params : List Str) :
    parse_url "mv".data params = parse_url "cp".data params := by
  unfold parse_url urlOf
  rw [if_pos (by decide : ("mv".data = "cp".data ∨ "mv".data = "mv".data)),
      if_pos (by decide : ("cp".data = "cp".data ∨ "cp".data = "mv".data))]

theorem parse_url_rmdir_eq_mkdir (params : List Str) :
    parse_url "rmdir".data params = parse_url "mkdir".data params := by
  unfold parse_url urlOf
  rw [if_neg (by decide : ¬("rmdir".data = "cp".data ∨ "rmdir".data = "mv".data)),
      if_neg (by decide : ¬("mkdir".data = "cp".data ∨ "mkdir".data = "mv".data))]

/-! ### C1 - what `parse_url` actually returns on `ftp://name:rest` -/

/-- C1 counterexample: on the very URL of the claim the password component
returned by `parse_url` is `secret/path/to/file`, not `secret` - the code
splits on `@`, so without an `@` the password swallows the path. -/
theorem parse_url_password_not_component :
    parse_url "ls".data ["ftp://alice:secret/path/to/file".data] =
      .ok ("alice".data, "secret/path/to/file".data, "/path/to/file".data) ∧
    ("secret/path/to/file".data ≠ "secret".data) :=
  ⟨rfl, by decide⟩

/-- C1 (amended): for a URL `ftp://name:rest` where neither part contains a
further colon, `parse_url` returns username `name`, password `rest` up to the
first `@` (so the whole of `rest`, path included, when no `@` is present),
and path from the first `/` of `rest`, defaulting to `/`. -/
theorem parse_url_colon_split (name rest : Str)
    (h1 : ':' ∉ name) (h2 : ':' ∉ rest) :
    parse_url "ls".data ["ftp://".data ++ name ++ ':' :: rest] =
      .ok (name, rest.takeWhile (· != '@'),
           if '/' ∈ rest then rest.dropWhile (· != '/') else "/".data) := by
  have hurl : urlOf "ls".data ["ftp://".data ++ name ++ ':' :: rest] =
      .ok ("ftp://".data ++ name ++ ':' :: rest) := by
    unfold urlOf
    rw [if_neg (by decide)]
    rfl
  have hdrop : List.drop 6 ("ftp://".data ++ (name ++ ':' :: rest)) = name ++ ':' :: rest :=
    List.drop_left "ftp://".data _
  unfold parse_url
  rw [hurl]
  show parse_url_body _ = _
  unfold parse_url_body
  rw [List.append_assoc, hdrop, pySplit_sep_append rest h1, pySplit_single h2]
  simp only [pyGet, pyGet_pySplit_zero, drop_findIdx_eq_dropWhile]

/-- Witness for C1 at the URL of the specification example. -/
theorem parse_url_colon_split_witness :
    (':' ∉ "alice".data) ∧ (':' ∉ "secret/path/to/file".data) ∧
    parse_url "ls".data ["ftp://alice:secret/path/to/file".data] =
      .ok ("alice".data, "secret/path/to/file".data, "/path/to/file".data) :=
  ⟨by decide, by decide,
   parse_url_colon_split "alice".data "secret/path/to/file".data (by decide) (by decide)⟩

/-! ### No operation ever calls exit: helper lemmas for C6 -/

theorem isExited_send_retr (env : Env) (fs : FS) (rpath lpath : Str) :
    isExited (send_retr env fs rpath lpath).2.2 = false := by
  unfold send_retr
  cases h : enter_passive_mode env with
  | mk ptr opt =>
    cases opt with
    | none => rfl
    | some pr =>
      obtain ⟨ip, pt⟩ := pr
      rfl

theorem isExited_send_stor (env : Env) (fs : FS) (lpath rpath : Str) :
    isExited (send_stor env fs lpath rpath).2.2 = false := by
  unfold send_stor
  by_cases hf : fs lpath = true
  · rw [if_pos hf]
    cases h : enter_passive_mode env with
    | mk ptr opt =>
      cases opt with
      | none => rfl
      | some pr =>
        obtain ⟨ip, pt⟩ := pr
        rfl
  · rw [if_neg hf]
    rfl

theorem isExited_send_cp (env : Env) (fs : FS) (src dst : Str) :
    isExited (send_cp env fs src dst).2.2 = false := by
  unfold send_cp
  by_cases hs : pyStartsWith "ftp://".data src = true
  · rw [if_pos hs]
    cases hp : parse_url "cp".data [src, []] with
    | error e => rfl
    | ok t =>
      obtain ⟨u, pw, p⟩ := t
      exact isExited_send_retr env fs p dst
  · rw [if_neg hs]
    cases hp : parse_url "cp".data [dst, []] with
    | error e => rfl
    | ok t =>
      obtain ⟨u, pw, p⟩ := t
      exact isExited_send_stor env fs src p

theorem isExited_send_mv (env : Env) (fs : FS) (src dst : Str) :
    isExited (send_mv env fs src dst).2.2 = false := by
  unfold send_mv
  by_cases hs : pyStartsWith "ftp://".data src = true
  · rw [if_pos hs]
    cases hp : parse_url "cp".data [src, []] with
    | error e => rfl
    | ok t =>
      obtain ⟨u, pw, p⟩ := t
      show isExited (match send_retr env fs p dst with
          | (tr, fs1, Outcome.ok) => (tr ++ send_dele env p, fs1, Outcome.ok)
          | r => r).2.2 = false
      have hr := isExited_send_retr env fs p dst
      cases hret : send_retr env fs p dst with
      | mk tr r2 =>
        obtain ⟨fs1, out⟩ := r2
        rw [hret] at hr
        cases out with
        | ok => rfl
        | exited c => simp [isExited] at hr
        | crashed e => rfl
  · rw [if_neg hs]
    cases hp : parse_url "cp".data [dst, []] with
    | error e => rfl
    | ok t =>
      obtain ⟨u, pw, p⟩ := t
      show isExited (match send_stor env fs src p with
          | (tr, fs1, Outcome.ok) =>
            if fs1 src then (tr ++ [Event.fileDelete src], setFS fs1 src false, Outcome.ok)
            else (tr, fs1, Outcome.crashed PyErr.fileNotFoundError)
          | r => r).2.2 = false
      have hr := isExited_send_stor env fs src p
      cases hstor : send_stor env fs src p with
      | mk tr r2 =>
        obtain ⟨fs1, out⟩ := r2
        rw [hstor] at hr
        cases out with
        | ok =>
          show isExited (if fs1 src then
              (tr ++ [Event.fileDelete src], setFS fs1 src false, Outcome.ok)
            else (tr, fs1, Outcome.crashed PyErr.fileNotFoundError)).2.2 = false
          by_cases hf1 : fs1 src = true
          · rw [if_pos hf1]
            rfl
          · rw [if_neg hf1]
            rfl
        | exited c => simp [isExited] at hr
        | crashed e => rfl

/-! ### C6 - argument-count handling -/

/-- C6 counterexample: `rm` with no arguments does not print the
argument-count error and exit with code 1 - `parse_url` raises `IndexError`
first (it subscripts `params[0]` before the count check runs). -/
theorem rm_no_args_crashes :
    (clientInit "rm".data [] env0 fs0).2.2 = .crashed .indexError ∧
    (clientInit "rm".data [] env0 fs0).2.2 ≠ .exited 1 ∧
    .printed rmArgErrMsg ∉ (clientInit "rm".data [] env0 fs0).1 :=
  ⟨rfl, by decide, by decide⟩

/-- C6 (amended): the argument-count `exit(1)` fires only for `cp`/`mv`
invocations whose single argument is a parseable `ftp://` URL (the URL is
parsed before the count check, so zero arguments - for `cp`, `mv` or `rm` -
or a single argument not starting with `ftp://` for `cp`/`mv` crash with
`IndexError` instead); with enough arguments no argument-count exit occurs
at all (`cp`/`mv` with two arguments and `rm` with one never terminate via
`exit`), and `rm` with one parseable URL argument completes normally. -/
theorem argcount_behavior (env : Env) (fs : FS) (url url2 loc : Str)
    (params2 params1 : List Str) (u pw p u2 pw2 p2 : Str)
    (h1 : parse_url "cp".data [url] = .ok (u, pw, p))
    (h2 : parse_url "rm".data [url2] = .ok (u2, pw2, p2))
    (hloc : pyStartsWith "ftp://".data loc = false)
    (hlen2 : 2 ≤ params2.length)
    (hlen1 : 1 ≤ params1.length) :
    ((clientInit "cp".data [url] env fs).2.2 = .exited 1 ∧
     .printed cpMvArgErrMsg ∈ (clientInit "cp".data [url] env fs).1) ∧
    ((clientInit "mv".data [url] env fs).2.2 = .exited 1 ∧
     .printed cpMvArgErrMsg ∈ (clientInit "mv".data [url] env fs).1) ∧
    ((clientInit "cp".data [] env fs).2.2 = .crashed .indexError) ∧
    ((clientInit "mv".data [] env fs).2.2 = .crashed .indexError) ∧
    ((clientInit "rm".data [] env fs).2.2 = .crashed .indexError) ∧
    ((clientInit "cp".data [loc] env fs).2.2 = .crashed .indexError) ∧
    ((clientInit "mv".data [loc] env fs).2.2 = .crashed .indexError) ∧
    (isExited (clientInit "cp".data params2 env fs).2.2 = false) ∧
    (isExited (clientInit "mv".data params2 env fs).2.2 = false) ∧
    (isExited (clientInit "rm".data params1 env fs).2.2 = false) ∧
    ((clientInit "rm".data [url2] env fs).2.2 = .ok) := by
  have hmv : parse_url "mv".data [url] = .ok (u, pw, p) :=
    (parse_url_mv_eq_cp [url]).trans h1
  have hdcp : dispatch env fs "cp".data [url] p = ([.printed cpMvArgErrMsg], fs, .exited 1) := by
    unfold dispatch
    rw [if_pos (Or.inl rfl), if_pos (by simp)]
  have hdmv : dispatch env fs "mv".data [url] p = ([.printed cpMvArgErrMsg], fs, .exited 1) := by
    unfold dispatch
    rw [if_pos (Or.inr rfl), if_pos (by simp)]
  have hdrm : dispatch env fs "rm".data [url2] p2 = (send_dele env p2, fs, .ok) := by
    unfold dispatch
    rw [if_neg (by decide), if_pos rfl, if_neg (by simp)]
  have hu : urlOf "cp".data [loc] = .error .indexError := by
    unfold urlOf
    rw [if_pos (Or.inl rfl)]
    show (if pyStartsWith "ftp://".data loc = true then Except.ok loc
          else pyGet [loc] 1) = .error .indexError
    rw [hloc, if_neg (by decide)]
    rfl
  have hploc : parse_url "cp".data [loc] = .error .indexError := by
    unfold parse_url
    rw [hu]
  have hploc2 : parse_url "mv".data [loc] = .error .indexError :=
    (parse_url_mv_eq_cp [loc]).trans hploc
  refine ⟨⟨?_, ?_⟩, ⟨?_, ?_⟩, rfl, rfl, rfl, ?_, ?_, ?_, ?_, ?_, ?_⟩
  · simp [clientInit, h1, hdcp, quitIf]
  · simp [clientInit, h1, hdcp, quitIf]
  · simp [clientInit, hmv, hdmv, quitIf]
  · simp [clientInit, hmv, hdmv, quitIf]
  · simp [clientInit, hploc]
  · simp [clientInit, hploc2]
  · unfold clientInit
    cases hp : parse_url "cp".data params2 with
    | error e => rfl
    | ok t =>
      obtain ⟨uu, pp, pathp⟩ := t
      show isExited (dispatch env fs "cp".data params2 pathp).2.2 = false
      unfold dispatch
      rw [if_pos (Or.inl rfl), if_neg (by omega), if_pos rfl]
      exact isExited_send_cp env fs _ _
  · unfold clientInit
    cases hp : parse_url "mv".data params2 with
    | error e => rfl
    | ok t =>
      obtain ⟨uu, pp, pathp⟩ := t
      show isExited (dispatch env fs "mv".data params2 pathp).2.2 = false
      unfold dispatch
      rw [if_pos (Or.inr rfl), if_neg (by omega), if_neg (by decide)]
      exact isExited_send_mv env fs _ _
  · unfold clientInit
    cases hp : parse_url "rm".data params1 with
    | error e => rfl
    | ok t =>
      obtain ⟨uu, pp, pathp⟩ := t
      show isExited (dispatch env fs "rm".data params1 pathp).2.2 = false
      unfold dispatch
      rw [if_neg (by decide), if_pos rfl, if_neg (by omega)]
      rfl
  · simp [clientInit, h2, hdrm, quitIf]

/-- Witness for C6 at concrete URLs, a local path, and argument lists. -/
theorem argcount_behavior_witness :
    parse_url "cp".data ["ftp://u:p/f".data] = .ok ("u".data, "p/f".data, "/f".data) ∧
    pyStartsWith "ftp://".data "notes.txt".data = false ∧
    2 ≤ (["a.txt".data, "ftp://u:p/f".data] : List Str).length ∧
    1 ≤ (["ftp://u:p/f".data] : List Str).length ∧
    ((clientInit "cp".data ["ftp://u:p/f".data] env0 fs0).2.2 = .exited 1 ∧
     (clientInit "mv".data ["ftp://u:p/f".data] env0 fs0).2.2 = .exited 1 ∧
     (clientInit "cp".data ["notes.txt".data] env0 fs0).2.2 = .crashed .indexError ∧
     isExited (clientInit "cp".data ["a.txt".data, "ftp://u:p/f".data] env0 fs0).2.2 = false ∧
     isExited (clientInit "rm".data ["ftp://u:p/f".data] env0 fs0).2.2 = false ∧
     (clientInit "rm".data ["ftp://u:p/f".data] env0 fs0).2.2 = .ok) := by
  have h := argcount_behavior env0 fs0 "ftp://u:p/f".data "ftp://u:p/f".data "notes.txt".data
    ["a.txt".data, "ftp://u:p/f".data] ["ftp://u:p/f".data]
    "u".data "p/f".data "/f".data "u".data "p/f".data "/f".data
    rfl rfl (by decide) (by decide) (by decide)
  exact ⟨rfl, by decide, by decide, by decide, h.1.1, h.2.1.1,
    h.2.2.2.2.2.1, h.2.2.2.2.2.2.2.1, h.2.2.2.2.2.2.2.2.2.1,
    h.2.2.2.2.2.2.2.2.2.2⟩

/-! ### C7 - mkdir/rmdir status-code checks -/

theorem mkdirOk_ne_fail (d r : Str) : mkdirOkMsg d ≠ mkdirFailMsg d r := by
  intro h
  have h2 : (some 'D' : Option Char) = some 'F' := congrArg List.head? h
  exact absurd h2 (by decide)

theorem rmdirOk_ne_fail (d r : Str) : rmdirOkMsg d ≠ rmdirFailMsg d r := by
  intro h
  have h2 : (some 'D' : Option Char) = some 'F' := congrArg List.head? h
  exact absurd h2 (by decide)

/-- C7: `send_mkdir` reports success exactly when the MKD response starts
with code 257 and otherwise prints a failure message carrying the raw
response; `send_rmdir` does the same with code 250 for RMD; and in both
cases the run still continues to QUIT and ends normally. -/
theorem mkdir_rmdir_status_codes (env : Env) (fs : FS) (dir url : Str)
    (u pw p : Str)
    (h : parse_url "mkdir".data [url] = .ok (u, pw, p)) :
    (send_mkdir env fs dir =
        ([.cmd ("MKD ".data ++ dir), .printed (mkdirOkMsg dir)], fs, .ok) ↔
      pyStartsWith "257".data (env.respond ("MKD ".data ++ dir)) = true) ∧
    (pyStartsWith "257".data (env.respond ("MKD ".data ++ dir)) = false →
      send_mkdir env fs dir =
        ([.cmd ("MKD ".data ++ dir),
          .printed (mkdirFailMsg dir (env.respond ("MKD ".data ++ dir)))], fs, .ok)) ∧
    (send_rmdir env fs dir =
        ([.cmd ("RMD ".data ++ dir), .printed (rmdirOkMsg dir)], fs, .ok) ↔
      pyStartsWith "250".data (env.respond ("RMD ".data ++ dir)) = true) ∧
    (pyStartsWith "250".data (env.respond ("RMD ".data ++ dir)) = false →
      send_rmdir env fs dir =
        ([.cmd ("RMD ".data ++ dir),
          .printed (rmdirFailMsg dir (env.respond ("RMD ".data ++ dir)))], fs, .ok)) ∧
    (.cmd "QUIT".data ∈ (clientInit "mkdir".data [url] env fs).1 ∧
      (clientInit "mkdir".data [url] env fs).2.2 = .ok) ∧
    (.cmd "QUIT".data ∈ (clientInit "rmdir".data [url] env fs).1 ∧
      (clientInit "rmdir".data [url] env fs).2.2 = .ok) := by
  have hrm : parse_url "rmdir".data [url] = .ok (u, pw, p) :=
    (parse_url_rmdir_eq_mkdir [url]).trans h
  have hdm : dispatch env fs "mkdir".data [url] p = send_mkdir env fs p := by
    unfold dispatch
    rw [if_neg (by decide), if_neg (by decide), if_neg (by decide), if_pos rfl]
  have hdr : dispatch env fs "rmdir".data [url] p = send_rmdir env fs p := by
    unfold dispatch
    rw [if_neg (by decide), if_neg (by decide), if_neg (by decide), if_neg (by decide),
        if_pos rfl]
  refine ⟨?_, ?_, ?_, ?_, ?_, ?_⟩
  · cases hs : pyStartsWith "257".data (env.respond ("MKD ".data ++ dir)) with
    | true =>
      unfold send_mkdir
      rw [hs]
      simp
    | false =>
      have hne := (mkdirOk_ne_fail dir (env.respond ("MKD ".data ++ dir))).symm
      unfold send_mkdir
      rw [hs]
      simp
      exact hne
  · intro hs
    unfold send_mkdir
    rw [hs]
    simp
  · cases hs : pyStartsWith "250".data (env.respond ("RMD ".data ++ dir)) with
    | true =>
      unfold send_rmdir
      rw [hs]
      simp
    | false =>
      have hne := (rmdirOk_ne_fail dir (env.respond ("RMD ".data ++ dir))).symm
      unfold send_rmdir
      rw [hs]
      simp
      exact hne
  · intro hs
    unfold send_rmdir
    rw [hs]
    simp
  · constructor
    · simp [clientInit, h, hdm, send_mkdir, quitIf, quitTrace]
    · simp [clientInit, h, hdm, send_mkdir]
  · constructor
    · simp [clientInit, hrm, hdr, send_rmdir, quitIf, quitTrace]
    · simp [clientInit, hrm, hdr, send_rmdir]

/-- Witness for C7 at a concrete directory and URL. -/
theorem mkdir_rmdir_status_codes_witness :
    parse_url "mkdir".data ["ftp://u:p/d".data] = .ok ("u".data, "p/d".data, "/d".data) ∧
    (send_mkdir env0 fs0 "/d".data =
        ([.cmd ("MKD ".data ++ "/d".data), .printed (mkdirOkMsg "/d".data)], fs0, .ok) ↔
      pyStartsWith "257".data (env0.respond ("MKD ".data ++ "/d".data)) = true) ∧
    (clientInit "mkdir".data ["ftp://u:p/d".data] env0 fs0).2.2 = .ok := by
  have h := mkdir_rmdir_status_codes env0 fs0 "/d".data "ftp://u:p/d".data
    "u".data "p/d".data "/d".data rfl
  exact ⟨rfl, h.1, h.2.2.2.2.1.2⟩

/-! ### C8 - authentication responses are surfaced, never validated -/

/-- C8: for every server behaviour (hence for every response to USER and
PASS, 2xx or not), the run prints the greeting, sends USER and PASS and
prints their responses verbatim, then sends TYPE I, MODE S and STRU F, and
then performs the dispatched operation; nothing is raised or retried on the
way. -/
theorem login_responses_not_validated (env : Env) (fs : FS) (op : Str)
    (params : List Str) (u pw p : Str)
    (h : parse_url op params = .ok (u, pw, p)) :
    listStartsWith (.printed env.greeting :: loginTrace env u pw)
      (clientInit op params env fs).1 = true ∧
    listStartsWith
      (.printed env.greeting ::
        (loginTrace env u pw ++ (dispatch env fs op params p).1))
      (clientInit op params env fs).1 = true := by
  constructor
  · have hsw := listStartsWith_append (.printed env.greeting :: loginTrace env u pw)
      ((dispatch env fs op params p).1 ++ quitIf env (dispatch env fs op params p).2.2)
    simpa [clientInit, h, List.append_assoc] using hsw
  · have hsw := listStartsWith_append
      (.printed env.greeting :: (loginTrace env u pw ++ (dispatch env fs op params p).1))
      (quitIf env (dispatch env fs op params p).2.2)
    simpa [clientInit, h, List.append_assoc] using hsw

/-- Witness for C8 on a server that rejects USER/PASS with a 530 response. -/
theorem login_responses_not_validated_witness :
    parse_url "ls".data ["ftp://u:p/f".data] = .ok ("u".data, "p/f".data, "/f".data) ∧
    listStartsWith
      (.printed envRefuse.greeting :: loginTrace envRefuse "u".data "p/f".data)
      (clientInit "ls".data ["ftp://u:p/f".data] envRefuse fs0).1 = true := by
  have h := login_responses_not_validated envRefuse fs0 "ls".data ["ftp://u:p/f".data]
    "u".data "p/f".data "/f".data rfl
  exact ⟨rfl, h.1⟩

/-! ### C4 - `mv` with a remote source: download, then DELE, no rollback -/

/-- C4: for a remote source, `send_mv` performs the whole download (passive
negotiation, data connection, RETR, local file write) and only afterwards
sends `DELE` as the final command; whatever the server answers to `DELE`
(the response is never read into a check), the run succeeds and the
downloaded local copy is still present in the final filesystem. -/
theorem send_mv_remote_download_then_delete (env : Env) (fs : FS) (src dst : Str)
    (u pw rpath ip : Str) (pt : Nat)
    (hsrc : pyStartsWith "ftp://".data src = true)
    (hparse : parse_url "cp".data [src, []] = .ok (u, pw, rpath))
    (hpasv : parsePassive (env.respond "PASV".data) = some (ip, pt)) :
    send_mv env fs src dst =
      ((enter_passive_mode env).1 ++
        [.openData ip pt, .cmd ("RETR ".data ++ rpath), .fileWrite dst, .closeData] ++
        [.cmd ("DELE ".data ++ rpath)],
       setFS fs dst true, .ok) ∧
    (send_mv env fs src dst).2.1 dst = true := by
  have hep : enter_passive_mode env =
      ([.cmd "PASV".data, .printed ("PASV Response: ".data ++ env.respond "PASV".data),
        .printed (pasvInfoMsg ip pt)], some (ip, pt)) := by
    unfold enter_passive_mode
    rw [hpasv]
  have hretr : send_retr env fs rpath dst =
      ((enter_passive_mode env).1 ++
        [.openData ip pt, .cmd ("RETR ".data ++ rpath), .fileWrite dst, .closeData],
       setFS fs dst true, .ok) := by
    unfold send_retr
    rw [hep]
  have hmv : send_mv env fs src dst =
      ((enter_passive_mode env).1 ++
        [.openData ip pt, .cmd ("RETR ".data ++ rpath), .fileWrite dst, .closeData] ++
        [.cmd ("DELE ".data ++ rpath)],
       setFS fs dst true, .ok) := by
    unfold send_mv
    rw [if_pos hsrc, hparse]
    simp only [hretr, send_dele, List.append_assoc]
  refine ⟨hmv, ?_⟩
  rw [hmv]
  show setFS fs dst true dst = true
  unfold setFS
  rw [if_pos rfl]

/-- Witness for C4 with a concrete server and paths. -/
theorem send_mv_remote_download_then_delete_witness :
    pyStartsWith "ftp://".data "ftp://u:p/f".data = true ∧
    parse_url "cp".data ["ftp://u:p/f".data, []] = .ok ("u".data, "p/f".data, "/f".data) ∧
    parsePassive (envPasv.respond "PASV".data) = some ("10.0.0.1".data, 1025) ∧
    (send_mv envPasv fs0 "ftp://u:p/f".data "local.txt".data).2.1 "local.txt".data = true := by
  have h := send_mv_remote_download_then_delete envPasv fs0 "ftp://u:p/f".data
    "local.txt".data "u".data "p/f".data "/f".data "10.0.0.1".data 1025
    (by decide) rfl (by decide)
  exact ⟨by decide, rfl, by decide, h.2⟩

/-! ### C3 - PASV parse failure: the code crashes instead of skipping -/

/-- C3 evidence: when the PASV response contains no six-number group, the
parse failure is printed, but `send_ls`, `send_retr` and `send_stor` (with an
existing local file) then all pass `(None, None)` to `socket.connect`, which
raises `TypeError`: the operation crashes rather than returning, and no data
connection is ever opened. -/
theorem pasv_failure_crashes_typeError (env : Env) (fs : FS) (path rpath lpath : Str)
    (hpasv : parsePassive (env.respond "PASV".data) = none)
    (hfs : fs lpath = true) :
    ((send_ls env fs path).2.2 = .crashed .typeError ∧
      .printed pasvFailMsg ∈ (send_ls env fs path).1 ∧
      noOpenData (send_ls env fs path).1 = true) ∧
    ((send_retr env fs rpath lpath).2.2 = .crashed .typeError ∧
      noOpenData (send_retr env fs rpath lpath).1 = true) ∧
    ((send_stor env fs lpath rpath).2.2 = .crashed .typeError ∧
      noOpenData (send_stor env fs lpath rpath).1 = true) := by
  have hep : enter_passive_mode env =
      ([.cmd "PASV".data, .printed ("PASV Response: ".data ++ env.respond "PASV".data),
        .printed pasvFailMsg], none) := by
    unfold enter_passive_mode
    rw [hpasv]
  refine ⟨⟨?_, ?_, ?_⟩, ⟨?_, ?_⟩, ⟨?_, ?_⟩⟩
  · unfold send_ls; rw [hep]
  · unfold send_ls; rw [hep]; simp
  · unfold send_ls; rw [hep]; simp [noOpenData]
  · unfold send_retr; rw [hep]
  · unfold send_retr; rw [hep]; simp [noOpenData]
  · unfold send_stor; rw [hfs, if_pos rfl, hep]
  · unfold send_stor; rw [hfs, if_pos rfl, hep]; simp [noOpenData]

/-- Witness for C3 on a server answering 500 to PASV. -/
theorem pasv_failure_crashes_typeError_witness :
    parsePassive (envNoPasv.respond "PASV".data) = none ∧
    fs1 "local.txt".data = true ∧
    (send_ls envNoPasv fs1 "/dir".data).2.2 = .crashed .typeError ∧
    noOpenData (send_ls envNoPasv fs1 "/dir".data).1 = true := by
  have h := pasv_failure_crashes_typeError envNoPasv fs1 "/dir".data "/f".data
    "local.txt".data (by decide) rfl
  exact ⟨by decide, rfl, h.1.1, h.1.2.2⟩

/-! ### C2 - helper lemmas about greedy digit-run matching -/

theorem takeWhile_dropWhile_append_all {p : Char → Bool} :
    ∀ (l t : Str), l.all p = true → t.head?.all (fun c => !p c) = true →
      (l ++ t).takeWhile p = l ∧ (l ++ t).dropWhile p = t
  | [], t, _, ht => by
    cases t with
    | nil => exact ⟨rfl, rfl⟩
    | cons c r =>
      have hc : p c = false := by simpa [Option.all] using ht
      exact ⟨by simp [List.takeWhile_cons, hc], by simp [List.dropWhile_cons, hc]⟩
  | a :: l, t, hl, ht => by
    rw [List.all_cons, Bool.and_eq_true] at hl
    obtain ⟨ih1, ih2⟩ := takeWhile_dropWhile_append_all l t hl.2 ht
    exact ⟨by simp [List.takeWhile_cons, hl.1, ih1], by simp [List.dropWhile_cons, hl.1, ih2]⟩

theorem matchGroup_run {g t : Str} (hne : g ≠ []) (hall : g.all Char.isDigit = true)
    (ht : t.head?.all (fun c => !c.isDigit) = true) :
    matchGroup (g ++ t) = some (g, t) := by
  obtain ⟨h1, h2⟩ := takeWhile_dropWhile_append_all g t hall ht
  unfold matchGroup
  rw [h1, h2, if_neg hne]

theorem matchGroupComma_run {g : Str} (hne : g ≠ []) (hall : g.all Char.isDigit = true) :
    ∀ r : Str, matchGroupComma (g ++ ',' :: r) = some (g, r) := by
  intro r
  have hmg : matchGroup (g ++ ',' :: r) = some (g, ',' :: r) :=
    matchGroup_run hne hall (by simp [Option.all])
  simp [matchGroupComma, hmg, expectComma]

theorem matchSix_run {g1 g2 g3 g4 g5 g6 : Str} (post : Str)
    (h1 : g1 ≠ [] ∧ g1.all Char.isDigit = true)
    (h2 : g2 ≠ [] ∧ g2.all Char.isDigit = true)
    (h3 : g3 ≠ [] ∧ g3.all Char.isDigit = true)
    (h4 : g4 ≠ [] ∧ g4.all Char.isDigit = true)
    (h5 : g5 ≠ [] ∧ g5.all Char.isDigit = true)
    (h6 : g6 ≠ [] ∧ g6.all Char.isDigit = true)
    (hpost : post.head?.all (fun c => !c.isDigit) = true) :
    matchSix (g1 ++ ',' :: (g2 ++ ',' :: (g3 ++ ',' :: (g4 ++ ',' :: (g5 ++ ',' ::
      (g6 ++ post)))))) = some (g1, g2, g3, g4, g5, g6) := by
  simp only [matchSix,
    matchGroupComma_run h1.1 h1.2,
    matchGroupComma_run h2.1 h2.2,
    matchGroupComma_run h3.1 h3.2,
    matchGroupComma_run h4.1 h4.2,
    matchGroupComma_run h5.1 h5.2,
    matchGroup_run h6.1 h6.2 hpost]

theorem matchSix_nonDigit_head {c : Char} (r : Str) (h : c.isDigit = false) :
    matchSix (c :: r) = none := by
  simp [matchSix, matchGroupComma, matchGroup, List.takeWhile_cons, h]

theorem dropWhile_head_of_exists {p : Char → Bool} :
    ∀ (l : Str), (∃ x ∈ l, p x = false) →
      ∃ y ys, l.dropWhile p = y :: ys ∧ y ∈ l ∧ p y = false
  | [], h => absurd h (by simp)
  | a :: l, h => by
    cases ha : p a with
    | false =>
      exact ⟨a, l, by simp [List.dropWhile_cons, ha], List.mem_cons_self a l, ha⟩
    | true =>
      have hl : ∃ x ∈ l, p x = false := by
        obtain ⟨x, hx, hpx⟩ := h
        rcases List.mem_cons.mp hx with rfl | hx'
        · exact absurd ha (by simp [hpx])
        · exact ⟨x, hx', hpx⟩
      obtain ⟨y, ys, hdw, hym, hyp⟩ := dropWhile_head_of_exists l hl
      exact ⟨y, ys, by simp [List.dropWhile_cons, ha, hdw], List.mem_cons_of_mem a hym, hyp⟩

theorem takeWhile_dropWhile_append_of_exists {p : Char → Bool} :
    ∀ (l t : Str), (∃ x ∈ l, p x = false) →
      (l ++ t).takeWhile p = l.takeWhile p ∧ (l ++ t).dropWhile p = l.dropWhile p ++ t
  | [], _, h => absurd h (by simp)
  | a :: l, t, h => by
    cases ha : p a with
    | false =>
      exact ⟨by simp [List.takeWhile_cons, ha], by simp [List.dropWhile_cons, ha]⟩
    | true =>
      have hl : ∃ x ∈ l, p x = false := by
        obtain ⟨x, hx, hpx⟩ := h
        rcases List.mem_cons.mp hx with rfl | hx'
        · exact absurd ha (by simp [hpx])
        · exact ⟨x, hx', hpx⟩
      obtain ⟨ih1, ih2⟩ := takeWhile_dropWhile_append_of_exists l t hl
      exact ⟨by simp [List.takeWhile_cons, ha, ih1], by simp [List.dropWhile_cons, ha, ih2]⟩

theorem mem_of_getLast?_eq : ∀ (l : Str) (y : Char), l.getLast? = some y → y ∈ l
  | [], y, h => by simp at h
  | [a], y, h => by
    simp [List.getLast?_singleton] at h
    simp [h]
  | a :: b :: l, y, h => by
    rw [List.getLast?_cons_cons] at h
    exact List.mem_cons_of_mem a (mem_of_getLast?_eq (b :: l) y h)

theorem exists_getLast?_eq : ∀ (l : Str), l ≠ [] → ∃ y, l.getLast? = some y
  | [], h => absurd rfl h
  | [a], _ => ⟨a, rfl⟩
  | a :: b :: l, _ => by
    rw [List.getLast?_cons_cons]
    exact exists_getLast?_eq (b :: l) (by simp)

theorem matchSix_inside_pre {c : Char} {pre' : Str} (t : Str)
    (hdigit : c.isDigit = true) (hcomma : ',' ∉ pre')
    {y : Char} (hy : pre'.getLast? = some y) (hyd : y.isDigit = false) :
    matchSix (c :: (pre' ++ t)) = none := by
  have hex : ∃ x ∈ pre', Char.isDigit x = false := ⟨y, mem_of_getLast?_eq pre' y hy, hyd⟩
  obtain ⟨tw, dw⟩ := takeWhile_dropWhile_append_of_exists pre' t hex
  obtain ⟨y0, ys, hdw', hy0mem, hy0d⟩ := dropWhile_head_of_exists pre' hex
  have hy0c : ¬ y0 = ',' := fun hh => hcomma (hh ▸ hy0mem)
  have hmg : matchGroup (c :: (pre' ++ t)) =
      some (c :: pre'.takeWhile Char.isDigit, y0 :: (ys ++ t)) := by
    unfold matchGroup
    rw [List.takeWhile_cons, List.dropWhile_cons]
    simp only [hdigit, if_true, tw, dw, hdw']
    simp
  simp [matchSix, matchGroupComma, hmg, expectComma, hy0c]

theorem reSearchSix_cons_none {c : Char} {r : Str} (h : matchSix (c :: r) = none) :
    reSearchSix (c :: r) = reSearchSix r := by
  simp only [reSearchSix, h]

theorem reSearchSix_skip : ∀ (pre t : Str), ',' ∉ pre →
    pre.getLast?.all (fun c => !c.isDigit) = true →
    reSearchSix (pre ++ t) = reSearchSix t
  | [], t, _, _ => rfl
  | [c], t, _, hlast => by
    have hc : c.isDigit = false := by
      simpa [Option.all, List.getLast?_singleton] using hlast
    show reSearchSix (c :: t) = reSearchSix t
    exact reSearchSix_cons_none (matchSix_nonDigit_head t hc)
  | c :: d :: pre'', t, hcomma, hlast => by
    have hcomma' : ',' ∉ d :: pre'' := fun hh => hcomma (List.mem_cons_of_mem c hh)
    have hlast' : (d :: pre'').getLast?.all (fun x => !x.isDigit) = true := by
      rwa [List.getLast?_cons_cons] at hlast
    have hms : matchSix (c :: ((d :: pre'') ++ t)) = none := by
      cases hc : c.isDigit with
      | false => exact matchSix_nonDigit_head _ hc
      | true =>
        obtain ⟨y, hy⟩ := exists_getLast?_eq (d :: pre'') (by simp)
        have hyd : y.isDigit = false := by
          rw [hy] at hlast'
          simpa [Option.all] using hlast'
        exact matchSix_inside_pre t hc hcomma' hy hyd
    show reSearchSix (c :: ((d :: pre'') ++ t)) = reSearchSix t
    rw [reSearchSix_cons_none hms]
    exact reSearchSix_skip (d :: pre'') t hcomma' hlast'

/-! ### C2 - PASV extraction -/

/-- C2: for every PASV response text whose six comma-separated decimal
number groups are the leftmost match of the pattern (the prefix before them
contains no comma and does not end in a digit, and the suffix does not start
with a digit), the passive-mode parser returns the IP string obtained by
joining the first four groups with dots and the port `p1 * 256 + p2`
computed from the last two. -/
theorem parsePassive_six_groups (pre g1 g2 g3 g4 g5 g6 post : Str)
    (hpre : ',' ∉ pre)
    (hlast : pre.getLast?.all (fun c => !c.isDigit) = true)
    (h1 : g1 ≠ [] ∧ g1.all Char.isDigit = true)
    (h2 : g2 ≠ [] ∧ g2.all Char.isDigit = true)
    (h3 : g3 ≠ [] ∧ g3.all Char.isDigit = true)
    (h4 : g4 ≠ [] ∧ g4.all Char.isDigit = true)
    (h5 : g5 ≠ [] ∧ g5.all Char.isDigit = true)
    (h6 : g6 ≠ [] ∧ g6.all Char.isDigit = true)
    (hpost : post.head?.all (fun c => !c.isDigit) = true) :
    parsePassive (pre ++ (g1 ++ ',' :: (g2 ++ ',' :: (g3 ++ ',' :: (g4 ++ ',' ::
        (g5 ++ ',' :: (g6 ++ post))))))) =
      some (g1 ++ '.' :: g2 ++ '.' :: g3 ++ '.' :: g4,
            digitsToNat g5 * 256 + digitsToNat g6) := by
  have hm := matchSix_run post h1 h2 h3 h4 h5 h6 hpost
  obtain ⟨c, g1', rfl⟩ := List.exists_cons_of_ne_nil h1.1
  rw [List.cons_append] at hm
  have hsearch : reSearchSix (pre ++ ((c :: g1') ++ ',' :: (g2 ++ ',' :: (g3 ++ ',' ::
      (g4 ++ ',' :: (g5 ++ ',' :: (g6 ++ post))))))) =
      some (c :: g1', g2, g3, g4, g5, g6) := by
    rw [reSearchSix_skip pre _ hpre hlast, List.cons_append]
    simp only [reSearchSix, hm]
  unfold parsePassive
  rw [hsearch]

/-- Witness for C2 at the PASV response of the specification example. -/
theorem parsePassive_six_groups_witness :
    (',' ∉ "227 Entering Passive Mode (".data) ∧
    parsePassive "227 Entering Passive Mode (192,168,1,5,200,3).".data =
      some ("192.168.1.5".data, 51203) := by
  have h := parsePassive_six_groups "227 Entering Passive Mode (".data
    "192".data "168".data "1".data "5".data "200".data "3".data ").".data
    (by decide) (by decide) ⟨by decide, by decide⟩ ⟨by decide, by decide⟩
    ⟨by decide, by decide⟩ ⟨by decide, by decide⟩ ⟨by decide, by decide⟩
    ⟨by decide, by decide⟩ (by decide)
  exact ⟨by decide, h⟩

/-! ### C9 - data-channel discipline -/

theorem ddCtrlSegment : ∀ (t1 t2 : List Event), ctrlOnly t1 = true →
    (∀ lp, ddAux none lp t2 = true) → ∀ lp0, ddAux none lp0 (t1 ++ t2) = true
  | [], _, _, h2, lp0 => h2 lp0
  | e :: t1, t2, hc, h2, lp0 => by
    rw [ctrlOnly, List.all_cons, Bool.and_eq_true] at hc
    cases e with
    | printed m =>
      show ddAux none lp0 (.printed m :: (t1 ++ t2)) = true
      simp only [ddAux]
      exact ddCtrlSegment t1 t2 hc.2 h2 (some m)
    | cmd c =>
      show ddAux none lp0 (.cmd c :: (t1 ++ t2)) = true
      simp only [ddAux]
      exact ddCtrlSegment t1 t2 hc.2 h2 none
    | openData ip pt => exact absurd hc.1 (by simp)
    | closeData => exact absurd hc.1 (by simp)
    | fileRead p => exact absurd hc.1 (by simp)
    | fileWrite p => exact absurd hc.1 (by simp)
    | fileDelete p => exact absurd hc.1 (by simp)

theorem ddSendLsQuit (env : Env) (fs : FS) (path : Str) (lp : Option Str) :
    ddAux none lp ((send_ls env fs path).1 ++ quitIf env (send_ls env fs path).2.2) = true := by
  cases hp : parsePassive (env.respond "PASV".data) with
  | none =>
    have hep : enter_passive_mode env =
        ([.cmd "PASV".data, .printed ("PASV Response: ".data ++ env.respond "PASV".data),
          .printed pasvFailMsg], none) := by
      unfold enter_passive_mode; rw [hp]
    simp only [send_ls, hep, quitIf, List.cons_append, List.nil_append, ddAux,
      Option.isNone_none]
  | some pair =>
    obtain ⟨ip, pt⟩ := pair
    have hep : enter_passive_mode env =
        ([.cmd "PASV".data, .printed ("PASV Response: ".data ++ env.respond "PASV".data),
          .printed (pasvInfoMsg ip pt)], some (ip, pt)) := by
      unfold enter_passive_mode; rw [hp]
    simp only [send_ls, hep, quitIf, quitTrace, List.cons_append, List.nil_append,
      List.append_assoc, ddAux, beq_self_eq_true, Bool.true_and, list_cmd_not_quit,
      Bool.not_false, Bool.and_true, Option.isNone_none]

theorem ddSendRetrQuit (env : Env) (fs : FS) (rpath lpath : Str) (lp : Option Str) :
    ddAux none lp ((send_retr env fs rpath lpath).1 ++
      quitIf env (send_retr env fs rpath lpath).2.2) = true := by
  cases hp : parsePassive (env.respond "PASV".data) with
  | none =>
    have hep : enter_passive_mode env =
        ([.cmd "PASV".data, .printed ("PASV Response: ".data ++ env.respond "PASV".data),
          .printed pasvFailMsg], none) := by
      unfold enter_passive_mode; rw [hp]
    simp only [send_retr, hep, quitIf, List.cons_append, List.nil_append, ddAux,
      Option.isNone_none]
  | some pair =>
    obtain ⟨ip, pt⟩ := pair
    have hep : enter_passive_mode env =
        ([.cmd "PASV".data, .printed ("PASV Response: ".data ++ env.respond "PASV".data),
          .printed (pasvInfoMsg ip pt)], some (ip, pt)) := by
      unfold enter_passive_mode; rw [hp]
    simp only [send_retr, hep, quitIf, quitTrace, List.cons_append, List.nil_append,
      List.append_assoc, ddAux, beq_self_eq_true, Bool.true_and, retr_cmd_not_quit,
      Bool.not_false, Bool.and_true, Option.isNone_none]

theorem ddSendStorQuit (env : Env) (fs : FS) (lpath rpath : Str) (lp : Option Str) :
    ddAux none lp ((send_stor env fs lpath rpath).1 ++
      quitIf env (send_stor env fs lpath rpath).2.2) = true := by
  cases hf : fs lpath with
  | false =>
    unfold send_stor
    rw [hf, if_neg (by decide)]
    simp only [quitIf, List.cons_append, List.nil_append, ddAux, Option.isNone_none]
  | true =>
    unfold send_stor
    rw [hf, if_pos rfl]
    cases hp : parsePassive (env.respond "PASV".data) with
    | none =>
      have hep : enter_passive_mode env =
          ([.cmd "PASV".data, .printed ("PASV Response: ".data ++ env.respond "PASV".data),
            .printed pasvFailMsg], none) := by
        unfold enter_passive_mode; rw [hp]
      simp only [hep, quitIf, List.cons_append, List.nil_append, ddAux, Option.isNone_none]
    | some pair =>
      obtain ⟨ip, pt⟩ := pair
      have hep : enter_passive_mode env =
          ([.cmd "PASV".data, .printed ("PASV Response: ".data ++ env.respond "PASV".data),
            .printed (pasvInfoMsg ip pt)], some (ip, pt)) := by
        unfold enter_passive_mode; rw [hp]
      simp only [hep, quitIf, quitTrace, List.cons_append, List.nil_append,
        List.append_assoc, ddAux, beq_self_eq_true, Bool.true_and, stor_cmd_not_quit,
        Bool.not_false, Bool.and_true, Option.isNone_none]

theorem ddSendCpQuit (env : Env) (fs : FS) (src dst : Str) (lp : Option Str) :
    ddAux none lp ((send_cp env fs src dst).1 ++
      quitIf env (send_cp env fs src dst).2.2) = true := by
  unfold send_cp
  by_cases hs : pyStartsWith "ftp://".data src = true
  · rw [if_pos hs]
    cases hp : parse_url "cp".data [src, []] with
    | error e => simp only [quitIf, List.nil_append, ddAux, Option.isNone_none]
    | ok t =>
      obtain ⟨u, pw, p⟩ := t
      exact ddSendRetrQuit env fs p dst lp
  · rw [if_neg hs]
    cases hp : parse_url "cp".data [dst, []] with
    | error e => simp only [quitIf, List.nil_append, ddAux, Option.isNone_none]
    | ok t =>
      obtain ⟨u, pw, p⟩ := t
      exact ddSendStorQuit env fs src p lp

theorem ddSendMvQuit (env : Env) (fs : FS) (src dst : Str) (lp : Option Str) :
    ddAux none lp ((send_mv env fs src dst).1 ++
      quitIf env (send_mv env fs src dst).2.2) = true := by
  unfold send_mv
  by_cases hs : pyStartsWith "ftp://".data src = true
  · rw [if_pos hs]
    cases hp : parse_url "cp".data [src, []] with
    | error e => simp only [quitIf, List.nil_append, ddAux, Option.isNone_none]
    | ok t =>
      obtain ⟨u, pw, p⟩ := t
      cases hp2 : parsePassive (env.respond "PASV".data) with
      | none =>
        have hep : enter_passive_mode env =
            ([.cmd "PASV".data, .printed ("PASV Response: ".data ++ env.respond "PASV".data),
              .printed pasvFailMsg], none) := by
          unfold enter_passive_mode; rw [hp2]
        have hretr : send_retr env fs p dst =
            ([.cmd "PASV".data, .printed ("PASV Response: ".data ++ env.respond "PASV".data),
              .printed pasvFailMsg], fs, .crashed .typeError) := by
          unfold send_retr; rw [hep]
        simp only [hretr, quitIf, List.cons_append, List.nil_append, ddAux,
          Option.isNone_none]
      | some pair =>
        obtain ⟨ip, pt⟩ := pair
        have hep : enter_passive_mode env =
            ([.cmd "PASV".data, .printed ("PASV Response: ".data ++ env.respond "PASV".data),
              .printed (pasvInfoMsg ip pt)], some (ip, pt)) := by
          unfold enter_passive_mode; rw [hp2]
        have hretr : send_retr env fs p dst =
            ([.cmd "PASV".data, .printed ("PASV Response: ".data ++ env.respond "PASV".data),
              .printed (pasvInfoMsg ip pt), .openData ip pt, .cmd ("RETR ".data ++ p),
              .fileWrite dst, .closeData], setFS fs dst true, .ok) := by
          unfold send_retr; rw [hep]; rfl
        simp only [hretr, send_dele, quitIf, quitTrace, List.cons_append, List.nil_append,
          List.append_assoc, ddAux, beq_self_eq_true, Bool.true_and, retr_cmd_not_quit,
          Bool.not_false, Bool.and_true, Option.isNone_none]
  · rw [if_neg hs]
    cases hp : parse_url "cp".data [dst, []] with
    | error e => simp only [quitIf, List.nil_append, ddAux, Option.isNone_none]
    | ok t =>
      obtain ⟨u, pw, p⟩ := t
      cases hf : fs src with
      | false =>
        have hstor : send_stor env fs src p = ([.printed (storMissingMsg src)], fs, .ok) := by
          unfold send_stor; rw [hf, if_neg (by decide)]
        simp [hstor, hf, quitIf, ddAux]
      | true =>
        cases hp2 : parsePassive (env.respond "PASV".data) with
        | none =>
          have hep : enter_passive_mode env =
              ([.cmd "PASV".data, .printed ("PASV Response: ".data ++ env.respond "PASV".data),
                .printed pasvFailMsg], none) := by
            unfold enter_passive_mode; rw [hp2]
          have hstor : send_stor env fs src p =
              ([.cmd "PASV".data, .printed ("PASV Response: ".data ++ env.respond "PASV".data),
                .printed pasvFailMsg], fs, .crashed .typeError) := by
            unfold send_stor; rw [hf, if_pos rfl, hep]
          simp only [hstor, quitIf, List.cons_append, List.nil_append, ddAux,
            Option.isNone_none]
        | some pair =>
          obtain ⟨ip, pt⟩ := pair
          have hep : enter_passive_mode env =
              ([.cmd "PASV".data, .printed ("PASV Response: ".data ++ env.respond "PASV".data),
                .printed (pasvInfoMsg ip pt)], some (ip, pt)) := by
            unfold enter_passive_mode; rw [hp2]
          have hstor : send_stor env fs src p =
              ([.cmd "PASV".data, .printed ("PASV Response: ".data ++ env.respond "PASV".data),
                .printed (pasvInfoMsg ip pt), .openData ip pt, .cmd ("STOR ".data ++ p),
                .fileRead src, .closeData], fs, .ok) := by
            unfold send_stor; rw [hf, if_pos rfl, hep]; rfl
          simp only [hstor, hf, eq_self_iff_true, if_true, quitIf, quitTrace,
            List.cons_append, List.nil_append, List.append_assoc, ddAux, beq_self_eq_true,
            Bool.true_and, stor_cmd_not_quit, Bool.not_false, Bool.and_true,
            Option.isNone_none]

theorem ddDispatchQuit (env : Env) (fs : FS) (op : Str) (params : List Str) (path : Str)
    (lp : Option Str) :
    ddAux none lp ((dispatch env fs op params path).1 ++
      quitIf env (dispatch env fs op params path).2.2) = true := by
  unfold dispatch
  by_cases h1 : op = "cp".data ∨ op = "mv".data
  · rw [if_pos h1]
    by_cases h2 : params.length < 2
    · rw [if_pos h2]
      simp only [quitIf, List.cons_append, List.nil_append, ddAux, Option.isNone_none]
    · rw [if_neg h2]
      by_cases h3 : op = "cp".data
      · rw [if_pos h3]
        exact ddSendCpQuit env fs _ _ lp
      · rw [if_neg h3]
        exact ddSendMvQuit env fs _ _ lp
  · rw [if_neg h1]
    by_cases h4 : op = "rm".data
    · rw [if_pos h4]
      by_cases h5 : params.length < 1
      · rw [if_pos h5]
        simp only [quitIf, List.cons_append, List.nil_append, ddAux, Option.isNone_none]
      · rw [if_neg h5]
        simp only [send_dele, quitIf, quitTrace, List.cons_append, List.nil_append, ddAux,
          Option.isNone_none]
    · rw [if_neg h4]
      by_cases h6 : op = "ls".data
      · rw [if_pos h6]
        exact ddSendLsQuit env fs path lp
      · rw [if_neg h6]
        by_cases h7 : op = "mkdir".data
        · rw [if_pos h7]
          simp only [send_mkdir, quitIf, quitTrace, List.cons_append, List.nil_append,
            ddAux, Option.isNone_none]
        · rw [if_neg h7]
          by_cases h8 : op = "rmdir".data
          · rw [if_pos h8]
            simp only [send_rmdir, quitIf, quitTrace, List.cons_append, List.nil_append,
              ddAux, Option.isNone_none]
          · rw [if_neg h8]
            simp only [quitIf, quitTrace, List.cons_append, List.nil_append, ddAux,
              Option.isNone_none]

/-- C9: in every run of the client, the trace obeys the data-channel
discipline: at most one data connection is open at a time, every successful
connect immediately follows the passive-mode success report for the same
endpoint (hence a successful PASV negotiation inside the same operation),
no QUIT command is ever sent while a data connection is open, and every
opened connection is closed again before the trace - and in particular the
run - ends, on all paths including the ones where responses report
failure or the operation crashes. -/
theorem data_channel_discipline (op : Str) (params : List Str) (env : Env) (fs : FS) :
    dataDiscipline (clientInit op params env fs).1 = true := by
  unfold dataDiscipline clientInit
  cases hp : parse_url op params with
  | error e =>
    show ddAux none none [.printed env.greeting] = true
    simp only [ddAux, Option.isNone_none]
  | ok t =>
    obtain ⟨u, pw, path⟩ := t
    show ddAux none none ((.printed env.greeting :: loginTrace env u pw) ++
      ((dispatch env fs op params path).1 ++
        quitIf env (dispatch env fs op params path).2.2)) = true
    exact ddCtrlSegment (.printed env.greeting :: loginTrace env u pw)
      ((dispatch env fs op params path).1 ++ quitIf env (dispatch env fs op params path).2.2)
      (by simp [ctrlOnly, loginTrace]) (ddDispatchQuit env fs op params path) none
